import Mathlib

/-!
Verification of the trading-demo core against its specification.

The development shallowly embeds the C++ sources:
* `Template` — `src/StrategyTemplate.hpp`: order value types and the CRTP
  validation-and-dispatch layer.  C++ exceptions (`std::invalid_argument`)
  become `Except DispatchError`; the broker adapter bound by CRTP becomes a
  record of functions, and each dispatch function also returns the list of
  adapter `*_Impl` invocations it performed, so that "no adapter method is
  called" is expressible.
* `Chinese` — `src/ChineseStrategy.{hpp,cpp}`: the IBKR-backed strategy.
  The `IIbkrGateway` interface becomes a record of (pure) behaviours; the
  gateway's observable interaction state (`nextOrderId` call counter and the
  log of `placeOrder` invocations) is threaded explicitly as `GwSt`.
  C++ `double` is embedded as `ℚ` (no rounding operation occurs on any
  modelled path, so the comparisons coincide with IEEE semantics).
* `Live` — `src/liveloop.hpp`: market picking and one cycle of the live
  loop.  An uncaught C++ exception escaping the cycle is `Except.error`.
* `Alpaca` — `src/AlpacaStrategy.cpp`: the order-result parser, with
  `std::string::find` re-implemented over `List Char`.
-/

namespace Template

inductive Side where
  | Buy
  | Sell
  deriving DecidableEq, Repr

inductive TimeInForce where
  | Day
  | GTC
  | IOC
  | FOK
  deriving DecidableEq, Repr

/-- `OrderResult` of `StrategyTemplate.hpp` (field defaults as in the source). -/
structure OrderResult where
  orderId : String := ""
  accepted : Bool := false
  message : String := ""
  deriving DecidableEq, Repr

structure MarketOrder where
  symbol : String
  side : Side
  qty : ℚ
  tif : TimeInForce := TimeInForce.Day
  deriving DecidableEq, Repr

structure LimitOrder where
  symbol : String
  side : Side
  qty : ℚ
  limitPrice : ℚ
  tif : TimeInForce := TimeInForce.Day
  deriving DecidableEq, Repr

structure StopOrder where
  symbol : String
  side : Side
  qty : ℚ
  stopPrice : ℚ
  tif : TimeInForce := TimeInForce.Day
  deriving DecidableEq, Repr

structure ShortOrder where
  symbol : String
  qty : ℚ
  tif : TimeInForce := TimeInForce.Day
  deriving DecidableEq, Repr

/-- The only error thrown by the dispatch layer: `std::invalid_argument`. -/
inductive DispatchError where
  | invalidArgument (msg : String)
  deriving DecidableEq, Repr

/-- `StrategyTemplate::validate_basic` (lines 98–101): throws
`std::invalid_argument` on an empty symbol or a non-positive quantity. -/
def validate_basic (symbol : String) (qty : ℚ) : Except DispatchError Unit :=
  if symbol = "" then Except.error (DispatchError.invalidArgument "symbol must not be empty")
  else if qty ≤ 0 then Except.error (DispatchError.invalidArgument "qty must be > 0")
  else Except.ok ()

/-- The broker adapter bound through CRTP: the four `*_Impl` operations the
dispatch layer can invoke for order placement. -/
structure Adapter where
  PlaceMarketOrder_Impl : MarketOrder → OrderResult
  PlaceShortOrder_Impl : ShortOrder → OrderResult
  PlaceStopOrder_Impl : StopOrder → OrderResult
  PlaceLimitOrder_Impl : LimitOrder → OrderResult

/-- One recorded invocation of an adapter `*_Impl` method. -/
inductive AdapterCall where
  | market (o : MarketOrder)
  | short (o : ShortOrder)
  | stop (o : StopOrder)
  | limit (o : LimitOrder)
  deriving DecidableEq, Repr

/-- `StrategyTemplate::PlaceMarketOrder` (lines 56–59): validate, then call
the derived `PlaceMarketOrder_Impl`.  The second component records the
adapter invocations performed. -/
def PlaceMarketOrder (a : Adapter) (o : MarketOrder) :
    Except DispatchError OrderResult × List AdapterCall :=
  match validate_basic o.symbol o.qty with
  | Except.error e => (Except.error e, [])
  | Except.ok _ => (Except.ok (a.PlaceMarketOrder_Impl o), [AdapterCall.market o])

/-- `StrategyTemplate::PlaceShortOrder` (lines 61–64). -/
def PlaceShortOrder (a : Adapter) (o : ShortOrder) :
    Except DispatchError OrderResult × List AdapterCall :=
  match validate_basic o.symbol o.qty with
  | Except.error e => (Except.error e, [])
  | Except.ok _ => (Except.ok (a.PlaceShortOrder_Impl o), [AdapterCall.short o])

/-- `StrategyTemplate::PlaceStopOrder` (lines 66–70): `validate_basic`, then
the `stopPrice <= 0.0` check, then the `*_Impl` call. -/
def PlaceStopOrder (a : Adapter) (o : StopOrder) :
    Except DispatchError OrderResult × List AdapterCall :=
  match validate_basic o.symbol o.qty with
  | Except.error e => (Except.error e, [])
  | Except.ok _ =>
    if o.stopPrice ≤ 0 then
      (Except.error (DispatchError.invalidArgument "stopPrice must be > 0"), [])
    else (Except.ok (a.PlaceStopOrder_Impl o), [AdapterCall.stop o])

/-- `StrategyTemplate::PlaceLimitOrder` (lines 72–76). -/
def PlaceLimitOrder (a : Adapter) (o : LimitOrder) :
    Except DispatchError OrderResult × List AdapterCall :=
  match validate_basic o.symbol o.qty with
  | Except.error e => (Except.error e, [])
  | Except.ok _ =>
    if o.limitPrice ≤ 0 then
      (Except.error (DispatchError.invalidArgument "limitPrice must be > 0"), [])
    else (Except.ok (a.PlaceLimitOrder_Impl o), [AdapterCall.limit o])

/-- An order intent entering the dispatch layer: one of the four order kinds. -/
inductive OrderIntent where
  | market (o : MarketOrder)
  | short (o : ShortOrder)
  | stop (o : StopOrder)
  | limit (o : LimitOrder)
  deriving DecidableEq, Repr

/-- Dispatch an order intent through the corresponding `Place*` entry point. -/
def dispatch (a : Adapter) : OrderIntent → Except DispatchError OrderResult × List AdapterCall
  | OrderIntent.market o => PlaceMarketOrder a o
  | OrderIntent.short o => PlaceShortOrder a o
  | OrderIntent.stop o => PlaceStopOrder a o
  | OrderIntent.limit o => PlaceLimitOrder a o

/-- An order intent violating the data-model invariants: empty symbol,
non-positive quantity, or (for limit/stop) non-positive price. -/
def intentInvalid : OrderIntent → Prop
  | OrderIntent.market o => o.symbol = "" ∨ o.qty ≤ 0
  | OrderIntent.short o => o.symbol = "" ∨ o.qty ≤ 0
  | OrderIntent.stop o => o.symbol = "" ∨ o.qty ≤ 0 ∨ o.stopPrice ≤ 0
  | OrderIntent.limit o => o.symbol = "" ∨ o.qty ≤ 0 ∨ o.limitPrice ≤ 0

instance (i : OrderIntent) : Decidable (intentInvalid i) := by
  cases i <;> simp only [intentInvalid] <;> infer_instance

end Template

/-- C1: every order intent with an empty symbol or non-positive quantity, and
every limit/stop intent with non-positive price, makes the `StrategyTemplate`
dispatch layer fail with `InvalidArgument`, with no adapter `*_Impl` method
invoked (empty call list). -/
theorem dispatch_invalid_intent_fails_without_adapter_call
    (a : Template.Adapter) (i : Template.OrderIntent) (h : Template.intentInvalid i) :
    (∃ msg, (Template.dispatch a i).1 =
      Except.error (Template.DispatchError.invalidArgument msg)) ∧
    (Template.dispatch a i).2 = [] := by
  cases i with
  | market o =>
    rcases h with hs | hq
    · simp [Template.dispatch, Template.PlaceMarketOrder, Template.validate_basic, hs]
    · by_cases hs : o.symbol = "" <;>
        simp [Template.dispatch, Template.PlaceMarketOrder, Template.validate_basic, hs, hq]
  | short o =>
    rcases h with hs | hq
    · simp [Template.dispatch, Template.PlaceShortOrder, Template.validate_basic, hs]
    · by_cases hs : o.symbol = "" <;>
        simp [Template.dispatch, Template.PlaceShortOrder, Template.validate_basic, hs, hq]
  | stop o =>
    rcases h with hs | hq | hp
    · simp [Template.dispatch, Template.PlaceStopOrder, Template.validate_basic, hs]
    · by_cases hs : o.symbol = "" <;>
        simp [Template.dispatch, Template.PlaceStopOrder, Template.validate_basic, hs, hq]
    · by_cases hs : o.symbol = ""
      · simp [Template.dispatch, Template.PlaceStopOrder, Template.validate_basic, hs]
      · by_cases hq : o.qty ≤ 0 <;>
          simp [Template.dispatch, Template.PlaceStopOrder, Template.validate_basic, hs, hq, hp]
  | limit o =>
    rcases h with hs | hq | hp
    · simp [Template.dispatch, Template.PlaceLimitOrder, Template.validate_basic, hs]
    · by_cases hs : o.symbol = "" <;>
        simp [Template.dispatch, Template.PlaceLimitOrder, Template.validate_basic, hs, hq]
    · by_cases hs : o.symbol = ""
      · simp [Template.dispatch, Template.PlaceLimitOrder, Template.validate_basic, hs]
      · by_cases hq : o.qty ≤ 0 <;>
          simp [Template.dispatch, Template.PlaceLimitOrder, Template.validate_basic, hs, hq, hp]

namespace Template

/-- A recording fake adapter whose operations all echo a fixed result. -/
def constAdapter : Adapter where
  PlaceMarketOrder_Impl := fun _ => { orderId := "A1", accepted := true, message := "ok" }
  PlaceShortOrder_Impl := fun _ => { orderId := "A2", accepted := true, message := "ok" }
  PlaceStopOrder_Impl := fun _ => { orderId := "A3", accepted := true, message := "ok" }
  PlaceLimitOrder_Impl := fun _ => { orderId := "A4", accepted := true, message := "ok" }

/-- A market-order intent with an empty symbol (and positive quantity). -/
def emptySymbolIntent : OrderIntent :=
  OrderIntent.market { symbol := "", side := Side.Buy, qty := 10 }

end Template

/-- Witness for C1 at a concrete invalid intent (empty symbol) against a
concrete recording adapter. -/
theorem dispatch_invalid_intent_fails_without_adapter_call_witness :
    (∃ msg, (Template.dispatch Template.constAdapter Template.emptySymbolIntent).1 =
      Except.error (Template.DispatchError.invalidArgument msg)) ∧
    (Template.dispatch Template.constAdapter Template.emptySymbolIntent).2 = [] :=
  dispatch_invalid_intent_fails_without_adapter_call
    Template.constAdapter Template.emptySymbolIntent (Or.inl rfl)

namespace Chinese

/-- `Instrument` of `ChineseStrategy.hpp` (lines 14–24). -/
structure Instrument where
  symbol : String := ""
  secType : String := ""
  exchange : String := ""
  currency : String := ""
  lastTradeDateOrContractMonth : String := ""
  tradingClass : String := ""
  multiplier : String := ""
  deriving DecidableEq, Repr

/-- `MarketOrder` DTO of `ChineseStrategy.hpp` (lines 26–31). -/
structure MarketOrder where
  instrument : Instrument
  quantity : ℚ := 0
  isBuy : Bool := true
  tif : String := "DAY"
  deriving DecidableEq, Repr

/-- `ShortOrder` DTO (lines 33–38). -/
structure ShortOrder where
  instrument : Instrument
  quantity : ℚ := 0
  tif : String := "DAY"
  deriving DecidableEq, Repr

/-- `StopOrder` DTO (lines 40–46). -/
structure StopOrder where
  instrument : Instrument
  quantity : ℚ := 0
  isBuy : Bool := false
  stopPrice : ℚ := 0
  tif : String := "GTC"
  deriving DecidableEq, Repr

/-- `LimitOrder` DTO (lines 48–54). -/
structure LimitOrder where
  instrument : Instrument
  quantity : ℚ := 0
  isBuy : Bool := true
  limitPrice : ℚ := 0
  tif : String := "DAY"
  deriving DecidableEq, Repr

/-- `OrderResult` of `ChineseStrategy.hpp` (lines 59–63). -/
structure OrderResult where
  ok : Bool := false
  orderId : Int := -1
  message : String := ""
  deriving DecidableEq, Repr

/-- `PositionCloseResult` of `ChineseStrategy.hpp` (lines 65–70). -/
structure PositionCloseResult where
  ok : Bool := false
  closeOrdersSent : Nat := 0
  orderIds : List Int := []
  message : String := ""
  deriving DecidableEq, Repr

/-- `OpenPosition` of `ChineseStrategy.hpp` (lines 76–80). -/
structure OpenPosition where
  instrument : Instrument
  position : ℚ := 0
  avgCost : ℚ := 0
  deriving DecidableEq, Repr

/-- The fields of the IBKR `Contract` that `BuildContract` populates. -/
structure Contract where
  symbol : String := ""
  secType : String := ""
  exchange : String := ""
  currency : String := ""
  lastTradeDateOrContractMonth : String := ""
  tradingClass : String := ""
  multiplier : String := ""
  deriving DecidableEq, Repr

/-- The fields of the IBKR `Order` that the strategy populates. -/
structure Order where
  action : String := ""
  orderType : String := ""
  totalQuantity : ℚ := 0
  lmtPrice : ℚ := 0
  auxPrice : ℚ := 0
  tif : String := ""
  deriving DecidableEq, Repr

/-- `IIbkrGateway` (lines 82–93), as a behaviour record.  `nextOrderId` is
indexed by how many times it has been called so far; `placeOrder` and
`getOpenPositionsSnapshot` either succeed or throw (`Except.error` carries
the exception's `what()` message). -/
structure IIbkrGateway where
  nextOrderId : Nat → Except String Int
  placeOrder : Int → Contract → Order → Except String Unit
  getOpenPositionsSnapshot : Except String (List OpenPosition)

/-- Observable interaction state of one gateway: the `nextOrderId` call
counter and the log of `placeOrder` invocations (in call order). -/
structure GwSt where
  nextCtr : Nat := 0
  placed : List (Int × Contract × Order) := []
  deriving DecidableEq, Repr

/-- Fresh gateway state at the start of an invocation. -/
def initGwSt : GwSt := {}

/-- `ActionFromBuy` of `ChineseStrategy.cpp` (lines 8–10). -/
def ActionFromBuy (isBuy : Bool) : String :=
  if isBuy then "BUY" else "SELL"

/-- `ChineseStrategy::BuildContract` (lines 17–35). -/
def BuildContract (i : Instrument) : Contract :=
  let c : Contract :=
    { symbol := i.symbol, secType := i.secType, exchange := i.exchange, currency := i.currency }
  if i.secType = "FUT" then
    { c with
      lastTradeDateOrContractMonth := i.lastTradeDateOrContractMonth,
      tradingClass := if i.tradingClass ≠ "" then i.tradingClass else c.tradingClass,
      multiplier := if i.multiplier ≠ "" then i.multiplier else c.multiplier }
  else c

/-- `ChineseStrategy::SendOrder` (lines 37–59): quantity guard, then
`nextOrderId`, then `placeOrder`; exceptions from either gateway call are
caught and reported as `ok = false`.  The `placeOrder` invocation is logged
the moment it happens, before its outcome is examined. -/
def SendOrder (g : IIbkrGateway) (s : GwSt) (c : Contract) (o : Order) : OrderResult × GwSt :=
  if o.totalQuantity ≤ 0 then
    ({ ok := false, orderId := -1, message := "Quantity must be > 0" }, s)
  else
    match g.nextOrderId s.nextCtr with
    | Except.error e =>
      ({ ok := false, orderId := -1, message := "Failed to send order: " ++ e },
       { s with nextCtr := s.nextCtr + 1 })
    | Except.ok oid =>
      let s2 : GwSt := { nextCtr := s.nextCtr + 1, placed := s.placed ++ [(oid, c, o)] }
      match g.placeOrder oid c o with
      | Except.error e =>
        ({ ok := false, orderId := -1, message := "Failed to send order: " ++ e }, s2)
      | Except.ok _ =>
        ({ ok := true, orderId := oid,
           message := "Order sent to IBKR (acceptance/fill is async via EWrapper callbacks)" }, s2)

/-- `ChineseStrategy::PlaceMarketOrder_Impl` (lines 61–71). -/
def PlaceMarketOrder_Impl (g : IIbkrGateway) (s : GwSt) (o : MarketOrder) : OrderResult × GwSt :=
  SendOrder g s (BuildContract o.instrument)
    { action := ActionFromBuy o.isBuy, orderType := "MKT", totalQuantity := o.quantity,
      tif := o.tif }

/-- `ChineseStrategy::PlaceShortOrder_Impl` (lines 73–85). -/
def PlaceShortOrder_Impl (g : IIbkrGateway) (s : GwSt) (o : ShortOrder) : OrderResult × GwSt :=
  SendOrder g s (BuildContract o.instrument)
    { action := "SELL", orderType := "MKT", totalQuantity := o.quantity, tif := o.tif }

/-- `ChineseStrategy::PlaceStopOrder_Impl` (lines 87–102): rejects a
non-positive stop price before touching the gateway. -/
def PlaceStopOrder_Impl (g : IIbkrGateway) (s : GwSt) (o : StopOrder) : OrderResult × GwSt :=
  if ¬(o.stopPrice > 0) then
    ({ ok := false, orderId := -1, message := "StopPrice must be > 0" }, s)
  else
    SendOrder g s (BuildContract o.instrument)
      { action := ActionFromBuy o.isBuy, orderType := "STP", totalQuantity := o.quantity,
        auxPrice := o.stopPrice, tif := o.tif }

/-- `ChineseStrategy::PlaceLimitOrder_Impl` (lines 104–119): rejects a
non-positive limit price before touching the gateway. -/
def PlaceLimitOrder_Impl (g : IIbkrGateway) (s : GwSt) (o : LimitOrder) : OrderResult × GwSt :=
  if ¬(o.limitPrice > 0) then
    ({ ok := false, orderId := -1, message := "LimitPrice must be > 0" }, s)
  else
    SendOrder g s (BuildContract o.instrument)
      { action := ActionFromBuy o.isBuy, orderType := "LMT", totalQuantity := o.quantity,
        lmtPrice := o.limitPrice, tif := o.tif }

/-- The literal `1e-12` of `ChineseStrategy.cpp` line 137. -/
def eps : ℚ := 1 / 1000000000000

/-- Loop accumulator of `CloseAllPositions_Impl`: `sent`, `orderIds`, and the
gateway interaction state. -/
structure CloseAcc where
  sent : Nat := 0
  ids : List Int := []
  st : GwSt := {}
  deriving DecidableEq, Repr

/-- One iteration of the closing sweep (lines 136–154): skip positions with
`|position| < 1e-12`, otherwise place an opposite market order (`BUY` to
close a short, `SELL` to close a long; quantity `|position|`, tif `"DAY"`),
counting and collecting ids only for accepted orders. -/
def closeStep (g : IIbkrGateway) (acc : CloseAcc) (p : OpenPosition) : CloseAcc :=
  if |p.position| < eps then acc
  else
    let r := PlaceMarketOrder_Impl g acc.st
      { instrument := p.instrument, quantity := |p.position|,
        isBuy := decide (p.position < 0), tif := "DAY" }
    if r.1.ok then { sent := acc.sent + 1, ids := acc.ids ++ [r.1.orderId], st := r.2 }
    else { acc with st := r.2 }

/-- `ChineseStrategy::CloseAllPositions_Impl` (lines 121–164). -/
def CloseAllPositions_Impl (g : IIbkrGateway) (s : GwSt) : PositionCloseResult × GwSt :=
  match g.getOpenPositionsSnapshot with
  | Except.error e =>
    ({ ok := false, closeOrdersSent := 0, orderIds := [],
       message := "Failed to fetch positions: " ++ e }, s)
  | Except.ok positions =>
    let acc := positions.foldl (closeStep g) { st := s }
    ({ ok := true, closeOrdersSent := acc.sent, orderIds := acc.ids,
       message := "CloseAllPositions: sent " ++ toString acc.sent ++ " market close orders." },
     acc.st)

/-- A fresh `CloseAllPositions` invocation (fresh interaction state). -/
def CloseAllPositions (g : IIbkrGateway) : PositionCloseResult × GwSt :=
  CloseAllPositions_Impl g initGwSt

/-- If every `placeOrder` call throws, `SendOrder` never reports `ok`. -/
theorem sendOrder_not_ok_of_reject (g : IIbkrGateway)
    (hrej : ∀ i c o, ∃ e, g.placeOrder i c o = Except.error e)
    (s : GwSt) (c : Contract) (o : Order) : (SendOrder g s c o).1.ok = false := by
  unfold SendOrder
  split
  · rfl
  · cases hn : g.nextOrderId s.nextCtr with
    | error e => simp
    | ok oid =>
      obtain ⟨e, he⟩ := hrej oid c o
      simp [he]

/-- If every `placeOrder` call throws, a sweep iteration leaves the accepted
count and the collected ids unchanged. -/
theorem closeStep_reject_preserves (g : IIbkrGateway)
    (hrej : ∀ i c o, ∃ e, g.placeOrder i c o = Except.error e)
    (acc : CloseAcc) (p : OpenPosition) :
    (closeStep g acc p).sent = acc.sent ∧ (closeStep g acc p).ids = acc.ids := by
  unfold closeStep
  split
  · exact ⟨rfl, rfl⟩
  · have h : (PlaceMarketOrder_Impl g acc.st
        { instrument := p.instrument, quantity := |p.position|,
          isBuy := decide (p.position < 0), tif := "DAY" }).1.ok = false :=
      sendOrder_not_ok_of_reject g hrej _ _ _
    simp [h]

/-- If every `placeOrder` call throws, the whole sweep fold leaves the
accepted count and the collected ids unchanged. -/
theorem closeFold_reject_preserves (g : IIbkrGateway)
    (hrej : ∀ i c o, ∃ e, g.placeOrder i c o = Except.error e) :
    ∀ (ps : List OpenPosition) (acc : CloseAcc),
      (ps.foldl (closeStep g) acc).sent = acc.sent ∧
      (ps.foldl (closeStep g) acc).ids = acc.ids := by
  intro ps
  induction ps with
  | nil => intro acc; exact ⟨rfl, rfl⟩
  | cons p ps ih =>
    intro acc
    rw [List.foldl_cons]
    obtain ⟨h1, h2⟩ := closeStep_reject_preserves g hrej acc p
    obtain ⟨ih1, ih2⟩ := ih (closeStep g acc p)
    exact ⟨h1 ▸ ih1, h2 ▸ ih2⟩

end Chinese

/-- C6: when the position-snapshot fetch throws, `CloseAllPositions` returns
`ok = false` carrying the failure message, and no closing order reaches the
gateway (the `placeOrder` log of the invocation stays empty). -/
theorem closeAll_snapshot_failure_aborts (g : Chinese.IIbkrGateway) (e : String)
    (h : g.getOpenPositionsSnapshot = Except.error e) :
    (Chinese.CloseAllPositions g).1.ok = false ∧
    (Chinese.CloseAllPositions g).1.message = "Failed to fetch positions: " ++ e ∧
    (Chinese.CloseAllPositions g).2.placed = [] := by
  simp [Chinese.CloseAllPositions, Chinese.CloseAllPositions_Impl, h, Chinese.initGwSt]

namespace Chinese

/-- A gateway whose snapshot fetch throws (orders would be accepted). -/
def gSnapFail : IIbkrGateway where
  nextOrderId := fun _ => Except.ok 1
  placeOrder := fun _ _ _ => Except.ok ()
  getOpenPositionsSnapshot := Except.error "socket closed"

/-- A gateway with no open positions. -/
def gEmptySnap : IIbkrGateway where
  nextOrderId := fun _ => Except.ok 1
  placeOrder := fun _ _ _ => Except.ok ()
  getOpenPositionsSnapshot := Except.ok []

/-- A one-position instrument used by concrete gateways. -/
def instIF : Instrument :=
  { symbol := "IF", secType := "FUT", exchange := "CFFEX", currency := "CNH",
    lastTradeDateOrContractMonth := "202603" }

/-- A gateway holding one long position whose every `placeOrder` throws. -/
def gRejectAll : IIbkrGateway where
  nextOrderId := fun n => Except.ok (Int.ofNat n + 10)
  placeOrder := fun _ _ _ => Except.error "order rejected"
  getOpenPositionsSnapshot := Except.ok [{ instrument := instIF, position := 5 }]

end Chinese

/-- Witness for C6 at a concrete gateway whose snapshot fetch throws. -/
theorem closeAll_snapshot_failure_aborts_witness :
    (Chinese.CloseAllPositions Chinese.gSnapFail).1.ok = false ∧
    (Chinese.CloseAllPositions Chinese.gSnapFail).1.message =
      "Failed to fetch positions: " ++ "socket closed" ∧
    (Chinese.CloseAllPositions Chinese.gSnapFail).2.placed = [] :=
  closeAll_snapshot_failure_aborts Chinese.gSnapFail "socket closed" rfl

/-- C7: the closing sweep reports `ok = true` with zero orders sent both over
an empty snapshot and when the broker throws on every individual close. -/
theorem closeAll_empty_or_all_rejected_reports_success_zero (g : Chinese.IIbkrGateway) :
    (g.getOpenPositionsSnapshot = Except.ok [] →
      (Chinese.CloseAllPositions g).1.ok = true ∧
      (Chinese.CloseAllPositions g).1.closeOrdersSent = 0) ∧
    ((∀ i c o, ∃ e, g.placeOrder i c o = Except.error e) →
      ∀ ps, g.getOpenPositionsSnapshot = Except.ok ps →
      (Chinese.CloseAllPositions g).1.ok = true ∧
      (Chinese.CloseAllPositions g).1.closeOrdersSent = 0) := by
  constructor
  · intro hs
    simp [Chinese.CloseAllPositions, Chinese.CloseAllPositions_Impl, hs]
  · intro hrej ps hs
    obtain ⟨h1, _⟩ := Chinese.closeFold_reject_preserves g hrej ps { st := Chinese.initGwSt }
    simp [Chinese.CloseAllPositions, Chinese.CloseAllPositions_Impl, hs, h1]

/-- Witness for C7: a concrete empty-snapshot gateway and a concrete
gateway rejecting every close both yield `ok = true` with zero sent. -/
theorem closeAll_empty_or_all_rejected_reports_success_zero_witness :
    ((Chinese.CloseAllPositions Chinese.gEmptySnap).1.ok = true ∧
      (Chinese.CloseAllPositions Chinese.gEmptySnap).1.closeOrdersSent = 0) ∧
    ((Chinese.CloseAllPositions Chinese.gRejectAll).1.ok = true ∧
      (Chinese.CloseAllPositions Chinese.gRejectAll).1.closeOrdersSent = 0) :=
  ⟨(closeAll_empty_or_all_rejected_reports_success_zero Chinese.gEmptySnap).1 rfl,
   (closeAll_empty_or_all_rejected_reports_success_zero Chinese.gRejectAll).2
     (fun _ _ _ => ⟨"order rejected", rfl⟩) _ rfl⟩

namespace Chinese

/-- The literal epsilon is positive. -/
theorem eps_pos : (0 : ℚ) < eps := by norm_num [eps]

end Chinese

/-- C2: over a two-position snapshot in which the gateway throws on the order
id assigned to one close and accepts the other, `CloseAllPositions` reports
`closeOrdersSent = 1` with exactly the accepted order's id, whichever of the
two positions is the rejected one — the rejection does not abort the sweep. -/
theorem closeAll_partial_failure_keeps_accepted
    (g : Chinese.IIbkrGateway) (p1 p2 : Chinese.OpenPosition) (i0 i1 : Int) (e : String)
    (hq1 : Chinese.eps ≤ |p1.position|) (hq2 : Chinese.eps ≤ |p2.position|)
    (hs : g.getOpenPositionsSnapshot = Except.ok [p1, p2])
    (hn0 : g.nextOrderId 0 = Except.ok i0) (hn1 : g.nextOrderId 1 = Except.ok i1) :
    ((∀ c o, g.placeOrder i0 c o = Except.error e) →
     (∀ c o, g.placeOrder i1 c o = Except.ok ()) →
      (Chinese.CloseAllPositions g).1.closeOrdersSent = 1 ∧
      (Chinese.CloseAllPositions g).1.orderIds = [i1]) ∧
    ((∀ c o, g.placeOrder i0 c o = Except.ok ()) →
     (∀ c o, g.placeOrder i1 c o = Except.error e) →
      (Chinese.CloseAllPositions g).1.closeOrdersSent = 1 ∧
      (Chinese.CloseAllPositions g).1.orderIds = [i0]) := by
  have h1 : ¬(|p1.position| < Chinese.eps) := not_lt.mpr hq1
  have h2 : ¬(|p2.position| < Chinese.eps) := not_lt.mpr hq2
  have hq1p : ¬(|p1.position| ≤ 0) := not_le.mpr (lt_of_lt_of_le Chinese.eps_pos hq1)
  have hq2p : ¬(|p2.position| ≤ 0) := not_le.mpr (lt_of_lt_of_le Chinese.eps_pos hq2)
  constructor <;> intro hr ha <;>
    simp [Chinese.CloseAllPositions, Chinese.CloseAllPositions_Impl, hs, Chinese.closeStep,
      Chinese.PlaceMarketOrder_Impl, Chinese.SendOrder, Chinese.initGwSt,
      h1, h2, hq1p, hq2p, hn0, hn1, hr, ha]

namespace Chinese

/-- A two-position gateway: the close of the first position (order id 10) is
rejected by a throw, the close of the second (order id 11) is accepted. -/
def gRejectFirst : IIbkrGateway where
  nextOrderId := fun n => Except.ok (Int.ofNat n + 10)
  placeOrder := fun i _ _ => if i = 10 then Except.error "rejected" else Except.ok ()
  getOpenPositionsSnapshot :=
    Except.ok [{ instrument := instIF, position := 5 }, { instrument := instIF, position := -3 }]

end Chinese

/-- Witness for C2: the concrete reject-then-accept gateway reports one sent
order whose id is the accepted order's id 11. -/
theorem closeAll_partial_failure_keeps_accepted_witness :
    (Chinese.CloseAllPositions Chinese.gRejectFirst).1.closeOrdersSent = 1 ∧
    (Chinese.CloseAllPositions Chinese.gRejectFirst).1.orderIds = [11] :=
  (closeAll_partial_failure_keeps_accepted Chinese.gRejectFirst
      { instrument := Chinese.instIF, position := 5 }
      { instrument := Chinese.instIF, position := -3 } 10 11 "rejected"
      (by norm_num [Chinese.eps]) (by norm_num [Chinese.eps]) rfl rfl rfl).1
    (fun _ _ => rfl) (fun _ _ => rfl)

namespace Chinese

/-- The closing market order the sweep is expected to build for a position:
`BUY` when the signed quantity is negative, `SELL` when positive, quantity
`|signedQuantity|`, `"DAY"` time in force. -/
def closeOrderFor (p : OpenPosition) : Order :=
  { action := if p.position < 0 then "BUY" else "SELL", orderType := "MKT",
    totalQuantity := |p.position|, tif := "DAY" }

/-- The `placeOrder` log the sweep is expected to produce over a snapshot,
when order ids are assigned by `f` starting at call counter `n`. -/
def expectedCloseLog (f : Nat → Int) : Nat → List OpenPosition → List (Int × Contract × Order)
  | _, [] => []
  | n, p :: ps => (f n, BuildContract p.instrument, closeOrderFor p) :: expectedCloseLog f (n + 1) ps

/-- One sweep iteration over a position above the threshold, against a
gateway that accepts everything: one close is sent and logged. -/
theorem closeStep_accept_eq (g : IIbkrGateway) (f : Nat → Int)
    (hn : ∀ n, g.nextOrderId n = Except.ok (f n))
    (ha : ∀ i c o, g.placeOrder i c o = Except.ok ())
    (acc : CloseAcc) (p : OpenPosition) (hp : eps < |p.position|) :
    closeStep g acc p =
      { sent := acc.sent + 1, ids := acc.ids ++ [f acc.st.nextCtr],
        st := { nextCtr := acc.st.nextCtr + 1,
                placed := acc.st.placed ++
                  [(f acc.st.nextCtr, BuildContract p.instrument, closeOrderFor p)] } } := by
  have hlt : ¬(|p.position| < eps) := not_lt.mpr hp.le
  have hqp : ¬(|p.position| ≤ 0) := not_le.mpr (lt_trans eps_pos hp)
  simp [closeStep, PlaceMarketOrder_Impl, SendOrder, hlt, hqp, hn, ha,
    closeOrderFor, ActionFromBuy]

/-- The sweep fold against an all-accepting gateway, for any starting
accumulator: every position is closed and logged in iteration order. -/
theorem closeFold_accept_eq (g : IIbkrGateway) (f : Nat → Int)
    (hn : ∀ n, g.nextOrderId n = Except.ok (f n))
    (ha : ∀ i c o, g.placeOrder i c o = Except.ok ()) :
    ∀ (ps : List OpenPosition), (∀ p ∈ ps, eps < |p.position|) → ∀ (acc : CloseAcc),
      ps.foldl (closeStep g) acc =
        { sent := acc.sent + ps.length,
          ids := acc.ids ++ (List.range' acc.st.nextCtr ps.length).map f,
          st := { nextCtr := acc.st.nextCtr + ps.length,
                  placed := acc.st.placed ++ expectedCloseLog f acc.st.nextCtr ps } } := by
  intro ps
  induction ps with
  | nil => intro _ acc; simp [expectedCloseLog]
  | cons p ps ih =>
    intro hmem acc
    have hp : eps < |p.position| := hmem p (List.mem_cons_self p ps)
    rw [List.foldl_cons, closeStep_accept_eq g f hn ha acc p hp,
      ih (fun q hq => hmem q (List.mem_cons_of_mem p hq))]
    simp [expectedCloseLog, List.range'_succ, CloseAcc.mk.injEq, GwSt.mk.injEq,
      List.append_assoc]
    omega

end Chinese

/-- C3: against a gateway that accepts every order, `CloseAllPositions` over
a snapshot of `N` positions (each `|signedQuantity|` above epsilon) places
exactly `N` market close orders: `BUY` for a negative signed quantity,
`SELL` for a positive one, quantity `|signedQuantity|`, `"DAY"` time in
force, accumulating the assigned order ids in snapshot iteration order. -/
theorem closeAll_accepting_closes_every_position
    (g : Chinese.IIbkrGateway) (f : Nat → Int) (ps : List Chinese.OpenPosition)
    (hn : ∀ n, g.nextOrderId n = Except.ok (f n))
    (ha : ∀ i c o, g.placeOrder i c o = Except.ok ())
    (hpos : ∀ p ∈ ps, Chinese.eps < |p.position|)
    (hs : g.getOpenPositionsSnapshot = Except.ok ps) :
    (Chinese.CloseAllPositions g).1.closeOrdersSent = ps.length ∧
    (Chinese.CloseAllPositions g).1.orderIds = (List.range ps.length).map f ∧
    (Chinese.CloseAllPositions g).2.placed = Chinese.expectedCloseLog f 0 ps := by
  have hf := Chinese.closeFold_accept_eq g f hn ha ps hpos { st := Chinese.initGwSt }
  simp [Chinese.initGwSt] at hf
  simp [Chinese.CloseAllPositions, Chinese.CloseAllPositions_Impl, hs, hf, Chinese.initGwSt,
    List.range_eq_range']

namespace Chinese

/-- A concrete two-position snapshot: one long (2), one short (-3). -/
def posList2 : List OpenPosition :=
  [{ instrument := instIF, position := 2 }, { instrument := instIF, position := -3 }]

/-- A gateway over `posList2` that accepts every order, assigning ids from
100 upward. -/
def gAcceptTwo : IIbkrGateway where
  nextOrderId := fun n => Except.ok (Int.ofNat n + 100)
  placeOrder := fun _ _ _ => Except.ok ()
  getOpenPositionsSnapshot := Except.ok posList2

end Chinese

/-- Witness for C3 at the concrete all-accepting two-position gateway. -/
theorem closeAll_accepting_closes_every_position_witness :
    (Chinese.CloseAllPositions Chinese.gAcceptTwo).1.closeOrdersSent = 2 ∧
    (Chinese.CloseAllPositions Chinese.gAcceptTwo).1.orderIds = [100, 101] ∧
    (Chinese.CloseAllPositions Chinese.gAcceptTwo).2.placed =
      Chinese.expectedCloseLog (fun n => Int.ofNat n + 100) 0 Chinese.posList2 := by
  have h := closeAll_accepting_closes_every_position Chinese.gAcceptTwo
    (fun n => Int.ofNat n + 100) Chinese.posList2 (fun _ => rfl) (fun _ _ _ => rfl)
    (by
      intro p hp
      simp only [Chinese.posList2, List.mem_cons, List.not_mem_nil, or_false] at hp
      rcases hp with h | h <;> subst h <;> norm_num [Chinese.eps]) rfl
  simpa [Chinese.posList2] using h

namespace Chinese

/-- When the quantity guard passes and `nextOrderId` succeeds, `SendOrder`
always logs exactly one `placeOrder` invocation, whatever its outcome. -/
theorem sendOrder_placed_eq (g : IIbkrGateway) (s : GwSt) (c : Contract) (o : Order)
    (hq : ¬(o.totalQuantity ≤ 0)) (i : Int) (hi : g.nextOrderId s.nextCtr = Except.ok i) :
    (SendOrder g s c o).2.placed = s.placed ++ [(i, c, o)] := by
  unfold SendOrder
  rw [if_neg hq, hi]
  cases h2 : g.placeOrder i c o <;> simp [h2]

/-- One sweep iteration grows the `placeOrder` log by one entry exactly when
the position clears the `< eps` skip (i.e. when `eps ≤ |position|`),
provided `nextOrderId` succeeds. -/
theorem closeStep_placed_length (g : IIbkrGateway)
    (hn : ∀ n, ∃ i, g.nextOrderId n = Except.ok i) (acc : CloseAcc) (p : OpenPosition) :
    (closeStep g acc p).st.placed.length =
      acc.st.placed.length + (if eps ≤ |p.position| then 1 else 0) := by
  by_cases hlt : |p.position| < eps
  · simp [closeStep, hlt, not_le.mpr hlt]
  · have hge : eps ≤ |p.position| := not_lt.mp hlt
    have hq : ¬(|p.position| ≤ 0) := not_le.mpr (lt_of_lt_of_le eps_pos hge)
    obtain ⟨i, hi⟩ := hn acc.st.nextCtr
    have hsend := sendOrder_placed_eq g acc.st (BuildContract p.instrument)
      { action := ActionFromBuy (decide (p.position < 0)), orderType := "MKT",
        totalQuantity := |p.position|, tif := "DAY" } hq i hi
    simp only [closeStep, PlaceMarketOrder_Impl, if_neg hlt]
    by_cases hok : (SendOrder g acc.st (BuildContract p.instrument)
        { action := ActionFromBuy (decide (p.position < 0)), orderType := "MKT",
          totalQuantity := |p.position|, tif := "DAY" }).1.ok <;>
      simp [hok, hsend, hge]

/-- The sweep fold logs one `placeOrder` invocation per position clearing the
threshold, provided `nextOrderId` always succeeds. -/
theorem closeFold_placed_length (g : IIbkrGateway)
    (hn : ∀ n, ∃ i, g.nextOrderId n = Except.ok i) :
    ∀ (ps : List OpenPosition) (acc : CloseAcc),
      (ps.foldl (closeStep g) acc).st.placed.length =
        acc.st.placed.length + (ps.filter (fun p => decide (eps ≤ |p.position|))).length := by
  intro ps
  induction ps with
  | nil => intro acc; simp
  | cons p ps ih =>
    intro acc
    rw [List.foldl_cons, ih (closeStep g acc p), closeStep_placed_length g hn acc p,
      List.filter_cons]
    by_cases h : eps ≤ |p.position| <;> simp [h]
    omega

/-- A gateway holding exactly one position whose signed quantity is exactly
the epsilon literal `1e-12`; every order is accepted. -/
def posEps : OpenPosition := { instrument := instIF, position := eps }

/-- Gateway for the epsilon-boundary experiment. -/
def gEpsilonEdge : IIbkrGateway where
  nextOrderId := fun _ => Except.ok 7
  placeOrder := fun _ _ _ => Except.ok ()
  getOpenPositionsSnapshot := Except.ok [posEps]

end Chinese

/-- Counterexample to C8 as stated: the snapshot's only position has
`|signedQuantity| ≤ 1e-12` (it equals the epsilon exactly), yet the sweep
does construct and submit a closing order for it (one `placeOrder` call is
logged), because the code skips only on the strict `< 1e-12`. -/
theorem closeAll_constructs_order_at_exact_epsilon :
    |Chinese.posEps.position| ≤ Chinese.eps ∧
    (Chinese.CloseAllPositions Chinese.gEpsilonEdge).2.placed.length = 1 := by
  have habs : |Chinese.posEps.position| = Chinese.eps := abs_of_pos Chinese.eps_pos
  have hlt : ¬(|Chinese.posEps.position| < Chinese.eps) := by
    rw [habs]; exact lt_irrefl _
  have hq : ¬(|Chinese.posEps.position| ≤ 0) := by
    rw [habs]; exact not_le.mpr Chinese.eps_pos
  refine ⟨le_of_eq habs, ?_⟩
  simp [Chinese.CloseAllPositions, Chinese.CloseAllPositions_Impl, Chinese.gEpsilonEdge,
    Chinese.closeStep, Chinese.PlaceMarketOrder_Impl, Chinese.SendOrder, Chinese.initGwSt,
    hlt, hq]

/-- C8 (amended): the sweep constructs (and submits) a closing order for a
position exactly when `|signedQuantity| ≥ 1e-12`; only positions with
`|signedQuantity|` strictly below the epsilon are skipped.  Stated as: the
number of `placeOrder` invocations equals the number of snapshot positions
clearing the threshold (gateway id allocation assumed to succeed). -/
theorem closeAll_order_logged_iff_epsilon_le
    (g : Chinese.IIbkrGateway) (ps : List Chinese.OpenPosition)
    (hn : ∀ n, ∃ i, g.nextOrderId n = Except.ok i)
    (hs : g.getOpenPositionsSnapshot = Except.ok ps) :
    (Chinese.CloseAllPositions g).2.placed.length =
      (ps.filter (fun p => decide (Chinese.eps ≤ |p.position|))).length := by
  have h := Chinese.closeFold_placed_length g hn ps { st := Chinese.initGwSt }
  simp [Chinese.initGwSt] at h
  simp [Chinese.CloseAllPositions, Chinese.CloseAllPositions_Impl, hs, Chinese.initGwSt, h]

/-- Witness for the amended C8 at the concrete epsilon-boundary gateway. -/
theorem closeAll_order_logged_iff_epsilon_le_witness :
    (Chinese.CloseAllPositions Chinese.gEpsilonEdge).2.placed.length =
      ([Chinese.posEps].filter (fun p => decide (Chinese.eps ≤ |p.position|))).length :=
  closeAll_order_logged_iff_epsilon_le Chinese.gEpsilonEdge [Chinese.posEps]
    (fun _ => ⟨7, rfl⟩) rfl

namespace Chinese

/-- An order input entering one of `ChineseStrategy`'s four public order
operations. -/
inductive OrderInput where
  | market (o : MarketOrder)
  | short (o : ShortOrder)
  | stop (o : StopOrder)
  | limit (o : LimitOrder)

/-- Run an order input through the corresponding `*_Impl` operation. -/
def runOrder (g : IIbkrGateway) (s : GwSt) : OrderInput → OrderResult × GwSt
  | OrderInput.market o => PlaceMarketOrder_Impl g s o
  | OrderInput.short o => PlaceShortOrder_Impl g s o
  | OrderInput.stop o => PlaceStopOrder_Impl g s o
  | OrderInput.limit o => PlaceLimitOrder_Impl g s o

/-- The quantity field of an order input. -/
def inputQuantity : OrderInput → ℚ
  | OrderInput.market o => o.quantity
  | OrderInput.short o => o.quantity
  | OrderInput.stop o => o.quantity
  | OrderInput.limit o => o.quantity

/-- The price precondition the `*_Impl` operation itself checks: positive
stop price for stop orders, positive limit price for limit orders, nothing
for market and short orders. -/
def inputPriceOk : OrderInput → Prop
  | OrderInput.market _ => True
  | OrderInput.short _ => True
  | OrderInput.stop o => 0 < o.stopPrice
  | OrderInput.limit o => 0 < o.limitPrice

/-- The instrument of an order input. -/
def inputInstrument : OrderInput → Instrument
  | OrderInput.market o => o.instrument
  | OrderInput.short o => o.instrument
  | OrderInput.stop o => o.instrument
  | OrderInput.limit o => o.instrument

/-- The IBKR order the `*_Impl` operation builds for an input. -/
def inputBuiltOrder : OrderInput → Order
  | OrderInput.market o =>
    { action := ActionFromBuy o.isBuy, orderType := "MKT", totalQuantity := o.quantity,
      tif := o.tif }
  | OrderInput.short o =>
    { action := "SELL", orderType := "MKT", totalQuantity := o.quantity, tif := o.tif }
  | OrderInput.stop o =>
    { action := ActionFromBuy o.isBuy, orderType := "STP", totalQuantity := o.quantity,
      auxPrice := o.stopPrice, tif := o.tif }
  | OrderInput.limit o =>
    { action := ActionFromBuy o.isBuy, orderType := "LMT", totalQuantity := o.quantity,
      lmtPrice := o.limitPrice, tif := o.tif }

/-- An always-accepting gateway with an empty book. -/
def gAcceptAll : IIbkrGateway where
  nextOrderId := fun n => Except.ok (Int.ofNat n + 1)
  placeOrder := fun _ _ _ => Except.ok ()
  getOpenPositionsSnapshot := Except.ok []

/-- A stop order with positive quantity, empty symbol, and the
default-constructed stop price `0`. -/
def stopNoPrice : StopOrder := { instrument := {}, quantity := 1 }

/-- A limit order with positive quantity and price but an empty symbol. -/
def limitEmptySym : LimitOrder := { instrument := {}, quantity := 1, limitPrice := 2 }

end Chinese

/-- Counterexample to C9 as stated: a stop order with strictly positive
quantity and an empty symbol is rejected by `PlaceStopOrder_Impl`'s price
guard (`stopPrice` is `0`) and never reaches the gateway's `placeOrder`:
the invocation log stays empty. -/
theorem chinese_stop_positive_qty_not_forwarded :
    0 < Chinese.stopNoPrice.quantity ∧ Chinese.stopNoPrice.instrument.symbol = "" ∧
    (Chinese.runOrder Chinese.gAcceptAll Chinese.initGwSt
        (Chinese.OrderInput.stop Chinese.stopNoPrice)).2.placed = [] := by
  refine ⟨by norm_num [Chinese.stopNoPrice], rfl, ?_⟩
  norm_num [Chinese.runOrder, Chinese.PlaceStopOrder_Impl, Chinese.stopNoPrice,
    Chinese.initGwSt]

/-- C9 (amended): every order input with strictly positive quantity that
also passes the operation's own price guard (positive stop/limit price; no
guard for market/short) is forwarded to the gateway's `placeOrder` — with
the symbol carried through unchanged and no empty-symbol validation on any
path (the instrument, hence also an empty symbol, is arbitrary here) —
provided the gateway's `nextOrderId` yields an id. -/
theorem chinese_orders_forwarded_without_symbol_validation
    (g : Chinese.IIbkrGateway) (i : Chinese.OrderInput) (oid : Int)
    (hq : 0 < Chinese.inputQuantity i) (hp : Chinese.inputPriceOk i)
    (hn : g.nextOrderId 0 = Except.ok oid) :
    (Chinese.runOrder g Chinese.initGwSt i).2.placed =
      [(oid, Chinese.BuildContract (Chinese.inputInstrument i), Chinese.inputBuiltOrder i)] := by
  cases i with
  | market o =>
    rw [show Chinese.runOrder g Chinese.initGwSt (Chinese.OrderInput.market o) =
        Chinese.PlaceMarketOrder_Impl g Chinese.initGwSt o from rfl]
    unfold Chinese.PlaceMarketOrder_Impl
    rw [Chinese.sendOrder_placed_eq g Chinese.initGwSt _ _ (not_le.mpr hq) oid hn]
    simp [Chinese.initGwSt, Chinese.inputInstrument, Chinese.inputBuiltOrder]
  | short o =>
    rw [show Chinese.runOrder g Chinese.initGwSt (Chinese.OrderInput.short o) =
        Chinese.PlaceShortOrder_Impl g Chinese.initGwSt o from rfl]
    unfold Chinese.PlaceShortOrder_Impl
    rw [Chinese.sendOrder_placed_eq g Chinese.initGwSt _ _ (not_le.mpr hq) oid hn]
    simp [Chinese.initGwSt, Chinese.inputInstrument, Chinese.inputBuiltOrder]
  | stop o =>
    have hg : ¬¬(o.stopPrice > 0) := not_not_intro hp
    rw [show Chinese.runOrder g Chinese.initGwSt (Chinese.OrderInput.stop o) =
        Chinese.PlaceStopOrder_Impl g Chinese.initGwSt o from rfl]
    unfold Chinese.PlaceStopOrder_Impl
    rw [if_neg hg, Chinese.sendOrder_placed_eq g Chinese.initGwSt _ _ (not_le.mpr hq) oid hn]
    simp [Chinese.initGwSt, Chinese.inputInstrument, Chinese.inputBuiltOrder]
  | limit o =>
    have hg : ¬¬(o.limitPrice > 0) := not_not_intro hp
    rw [show Chinese.runOrder g Chinese.initGwSt (Chinese.OrderInput.limit o) =
        Chinese.PlaceLimitOrder_Impl g Chinese.initGwSt o from rfl]
    unfold Chinese.PlaceLimitOrder_Impl
    rw [if_neg hg, Chinese.sendOrder_placed_eq g Chinese.initGwSt _ _ (not_le.mpr hq) oid hn]
    simp [Chinese.initGwSt, Chinese.inputInstrument, Chinese.inputBuiltOrder]

/-- Witness for the amended C9: a limit order with an empty symbol reaches
`placeOrder` against a concrete accepting gateway. -/
theorem chinese_orders_forwarded_without_symbol_validation_witness :
    (Chinese.runOrder Chinese.gAcceptAll Chinese.initGwSt
        (Chinese.OrderInput.limit Chinese.limitEmptySym)).2.placed =
      [(1, Chinese.BuildContract
            (Chinese.inputInstrument (Chinese.OrderInput.limit Chinese.limitEmptySym)),
        Chinese.inputBuiltOrder (Chinese.OrderInput.limit Chinese.limitEmptySym))] :=
  chinese_orders_forwarded_without_symbol_validation Chinese.gAcceptAll
    (Chinese.OrderInput.limit Chinese.limitEmptySym) 1
    (by norm_num [Chinese.limitEmptySym, Chinese.inputQuantity])
    (by norm_num [Chinese.limitEmptySym, Chinese.inputPriceOk]) rfl

namespace Live

/-- The `Market` enum of `liveloop.hpp` (line 33). -/
inductive Market where
  | US
  | CN
  | NONE
  deriving DecidableEq, Repr

/-- `MarketPick` (lines 35–38). -/
structure MarketPick where
  market : Market := Market.NONE
  symbol : String := ""
  deriving DecidableEq, Repr

/-- `Candle` (lines 47–53), field defaults as in the source. -/
structure Candle where
  t : String := ""
  o : ℚ := 0
  h : ℚ := 0
  l : ℚ := 0
  c : ℚ := 0
  v : Int := 0
  ok : Bool := false
  raw : String := ""
  deriving DecidableEq, Repr

/-- The capability surface of the Alpaca adapter that `liveloop.hpp` uses:
the market-open flag, the two base URLs, and `http_get`, which either
returns a `(status, body)` pair or throws (`Except.error` carries the
`std::runtime_error` message of a transport-level failure). -/
structure AlpacaApi where
  isMarketOpen : Bool
  http_get : String → Except String (Int × String)
  trading_base_url : String
  data_base_url : String

/-- `GetFirst5MinCandle_US` (lines 60–116): clock, calendar for `ymd`
(today's UTC date, resolved outside this pure model), then the first 5-min
bar; each non-2xx status short-circuits into a not-ok candle carrying the
diagnostic payload, while a thrown `http_get` propagates. -/
def GetFirst5MinCandle_US (api : AlpacaApi) (symbol ymd : String) : Except String Candle :=
  match api.http_get (api.trading_base_url ++ "/v2/clock") with
  | Except.error e => Except.error e
  | Except.ok (stClock, clockJson) =>
    if stClock < 200 ∨ 300 ≤ stClock then
      Except.ok { ok := false, raw := "clock failed: " ++ clockJson }
    else
      match api.http_get
          (api.trading_base_url ++ "/v2/calendar?start=" ++ ymd ++ "&end=" ++ ymd) with
      | Except.error e => Except.error e
      | Except.ok (stCal, calJson) =>
        if stCal < 200 ∨ 300 ≤ stCal then
          Except.ok { ok := false, raw := "calendar failed: " ++ calJson }
        else
          match api.http_get
              (api.data_base_url ++ "/v2/stocks/bars?symbols=" ++ symbol ++
                "&timeframe=5Min&start=" ++ (ymd ++ "T00:00:00Z") ++ "&limit=1") with
          | Except.error e => Except.error e
          | Except.ok (stBars, barsJson) =>
            Except.ok { ok := decide (200 ≤ stBars ∧ stBars < 300), raw := barsJson }

/-- `GetFirst5MinCandle_CN_Placeholder` (lines 118–120). -/
def GetFirst5MinCandle_CN_Placeholder (_symbol : String) : Candle :=
  { ok := false, raw := "CN market data not implemented yet" }

/-- `pick_market` (lines 124–138).  The secondary market's open-window
predicate `is_cn_market_open_utc` (declared elsewhere in the repository) is
a pure function of the wall clock; its value at the current instant enters
as `cnOpen`. -/
def pick_market (api : AlpacaApi) (cnOpen : Bool) : MarketPick :=
  if api.isMarketOpen then { market := Market.US, symbol := "SPY" }
  else if cnOpen then { market := Market.CN, symbol := "SSE" }
  else { market := Market.NONE, symbol := "" }

/-- Observable outcome of one cycle of `live_loop` (lines 142–170): the
market picked, how many times the US sample-fetch sub-protocol was invoked,
and the logged sample — `Except.ok` means the cycle ran to its sleep,
`Except.error` an uncaught exception escaping the cycle. -/
structure CycleOut where
  pick : MarketPick
  usFetches : Nat
  sample : Except String (Option Candle)

/-- One cycle of `live_loop`: pick a market, fetch its sample (US via the
3-step sub-protocol, CN via the placeholder, none otherwise), then sleep. -/
def live_cycle (api : AlpacaApi) (cnOpen : Bool) (ymd : String) : CycleOut :=
  let pick := pick_market api cnOpen
  match pick.market with
  | Market.US =>
    { pick := pick, usFetches := 1,
      sample := (GetFirst5MinCandle_US api pick.symbol ymd).map (fun c => some c) }
  | Market.CN =>
    { pick := pick, usFetches := 0,
      sample := Except.ok (some (GetFirst5MinCandle_CN_Placeholder pick.symbol)) }
  | Market.NONE =>
    { pick := pick, usFetches := 0, sample := Except.ok none }

/-- An adapter whose every HTTP request fails at transport level. -/
def apiDown : AlpacaApi where
  isMarketOpen := true
  http_get := fun _ => Except.error "curl failed: Could not connect to server"
  trading_base_url := "https://paper"
  data_base_url := "https://data"

/-- An adapter whose clock request answers 500 and everything else 200. -/
def apiBadClock : AlpacaApi where
  isMarketOpen := true
  http_get := fun u => if u = "T/v2/clock" then Except.ok (500, "boom") else Except.ok (200, "bars")
  trading_base_url := "T"
  data_base_url := "D"

/-- A healthy open-market adapter. -/
def apiOpen : AlpacaApi where
  isMarketOpen := true
  http_get := fun _ => Except.ok (200, "body")
  trading_base_url := "T"
  data_base_url := "D"

/-- A closed-market adapter. -/
def apiClosed : AlpacaApi where
  isMarketOpen := false
  http_get := fun _ => Except.ok (200, "body")
  trading_base_url := "T"
  data_base_url := "D"

end Live

/-- Counterexample to C4 as stated: when the broker is unreachable (the
clock request throws at transport level), the cycle does not produce a
not-ok sample and proceed to Sleeping — the exception escapes the sample
retrieval and the loop (`live_loop` has no handler), modelled as the cycle
ending in `Except.error` instead of any logged sample. -/
theorem live_cycle_transport_failure_escapes :
    (Live.live_cycle Live.apiDown false "2026-01-01").sample =
      Except.error "curl failed: Could not connect to server" := by
  simp [Live.live_cycle, Live.pick_market, Live.apiDown, Live.GetFirst5MinCandle_US,
    Except.map]

/-- C4 (amended): any sub-protocol step that completes with a non-2xx status
yields a sample marked not-ok carrying the raw diagnostic payload, and such
a sample lets the cycle run to Sleeping with the outcome logged; only a
transport-level throw escapes.  Conjuncts: (clock non-2xx), (calendar
non-2xx after 2xx clock), (bars status decides `ok` after 2xx clock and
calendar), and (any returned candle completes the US cycle as the logged
sample). -/
theorem sample_fetch_http_failure_yields_not_ok_sample
    (api : Live.AlpacaApi) (sym ymd : String) (cnOpen : Bool) (stC : Int) (bC : String)
    (hclock : api.http_get (api.trading_base_url ++ "/v2/clock") = Except.ok (stC, bC)) :
    ((stC < 200 ∨ 300 ≤ stC) →
      Live.GetFirst5MinCandle_US api sym ymd =
        Except.ok { ok := false, raw := "clock failed: " ++ bC }) ∧
    (∀ stK bK,
      api.http_get (api.trading_base_url ++ "/v2/calendar?start=" ++ ymd ++ "&end=" ++ ymd) =
        Except.ok (stK, bK) →
      ¬(stC < 200 ∨ 300 ≤ stC) →
      ((stK < 200 ∨ 300 ≤ stK) →
        Live.GetFirst5MinCandle_US api sym ymd =
          Except.ok { ok := false, raw := "calendar failed: " ++ bK }) ∧
      (∀ stB bB,
        api.http_get (api.data_base_url ++ "/v2/stocks/bars?symbols=" ++ sym ++
            "&timeframe=5Min&start=" ++ (ymd ++ "T00:00:00Z") ++ "&limit=1") =
          Except.ok (stB, bB) →
        ¬(stK < 200 ∨ 300 ≤ stK) →
        Live.GetFirst5MinCandle_US api sym ymd =
          Except.ok { ok := decide (200 ≤ stB ∧ stB < 300), raw := bB })) ∧
    (∀ c, Live.GetFirst5MinCandle_US api "SPY" ymd = Except.ok c →
      api.isMarketOpen = true →
      (Live.live_cycle api cnOpen ymd).sample = Except.ok (some c)) := by
  refine ⟨?_, ?_, ?_⟩
  · intro hbad
    simp [Live.GetFirst5MinCandle_US, hclock, hbad]
  · intro stK bK hcal hgood
    constructor
    · intro hbadK
      simp [Live.GetFirst5MinCandle_US, hclock, hcal, hgood, hbadK]
    · intro stB bB hbars hgoodK
      simp [Live.GetFirst5MinCandle_US, hclock, hcal, hbars, hgood, hgoodK]
  · intro c hc hopen
    simp [Live.live_cycle, Live.pick_market, hopen, hc, Except.map]

/-- Witness for the amended C4: against a concrete adapter answering 500 on
the clock request, the sub-protocol returns a not-ok sample carrying the
payload. -/
theorem sample_fetch_http_failure_yields_not_ok_sample_witness :
    Live.GetFirst5MinCandle_US Live.apiBadClock "SPY" "2026-01-02" =
      Except.ok { ok := false, raw := "clock failed: " ++ "boom" } :=
  (sample_fetch_http_failure_yields_not_ok_sample Live.apiBadClock "SPY" "2026-01-02"
    false 500 "boom" (by simp [Live.apiBadClock])).1 (Or.inr (by norm_num))

/-- C5: a cycle with the primary adapter reporting an open market selects
the US market with proxy symbol "SPY" and invokes the sample-fetch
sub-protocol exactly once; with the market closed and the secondary
open-window predicate false at the current instant, it selects no market
and performs zero sample-fetch invocations. -/
theorem live_cycle_market_selection
    (api : Live.AlpacaApi) (cnOpen : Bool) (ymd : String) :
    (api.isMarketOpen = true →
      (Live.live_cycle api cnOpen ymd).pick =
        { market := Live.Market.US, symbol := "SPY" } ∧
      (Live.live_cycle api cnOpen ymd).usFetches = 1) ∧
    (api.isMarketOpen = false → cnOpen = false →
      (Live.live_cycle api cnOpen ymd).pick =
        { market := Live.Market.NONE, symbol := "" } ∧
      (Live.live_cycle api cnOpen ymd).usFetches = 0) := by
  constructor
  · intro h
    simp [Live.live_cycle, Live.pick_market, h]
  · intro h1 h2
    simp [Live.live_cycle, Live.pick_market, h1, h2]

/-- Witness for C5 at a concrete open adapter and a concrete closed adapter
with the secondary window closed. -/
theorem live_cycle_market_selection_witness :
    ((Live.live_cycle Live.apiOpen false "2026-01-02").pick =
        { market := Live.Market.US, symbol := "SPY" } ∧
      (Live.live_cycle Live.apiOpen false "2026-01-02").usFetches = 1) ∧
    ((Live.live_cycle Live.apiClosed false "2026-01-02").pick =
        { market := Live.Market.NONE, symbol := "" } ∧
      (Live.live_cycle Live.apiClosed false "2026-01-02").usFetches = 0) :=
  ⟨(live_cycle_market_selection Live.apiOpen false "2026-01-02").1 rfl,
   (live_cycle_market_selection Live.apiClosed false "2026-01-02").2 rfl rfl⟩

namespace Alpaca

/-- First index at or after offset `i` where `needle` occurs in the
remaining haystack (the semantics of `std::string::find`). -/
def strFindAux (needle : List Char) : List Char → Nat → Option Nat
  | [], i => if needle = [] then some i else none
  | ch :: rest, i =>
    if needle.isPrefixOf (ch :: rest) then some i else strFindAux needle rest (i + 1)

/-- `std::string::find(needle)`: first occurrence index, `none` for `npos`. -/
def strFind (hay needle : List Char) : Option Nat :=
  strFindAux needle hay 0

/-- `std::string::find(ch, start)`: first index `≥ start` holding `ch`. -/
def charFindFrom (hay : List Char) (ch : Char) (start : Nat) : Option Nat :=
  match strFindAux [ch] (hay.drop start) 0 with
  | none => none
  | some j => some (start + j)

/-- `resp.substr(a, b - a)`. -/
def substrRange (hay : List Char) (a b : Nat) : List Char :=
  (hay.drop a).take (b - a)

/-- The key literal `"id":"` searched by `parse_order_result`. -/
def orderIdKey : List Char := "\"id\":\"".toList

/-- `AlpacaPaperApi::parse_order_result` (lines 206–220): for a 2xx status,
extract the text between the first occurrence of the key `"id":"` and the
next quote as the order id (empty when absent) and report acceptance;
otherwise report failure carrying status and body. -/
def parse_order_result (status : Int) (resp : List Char) : Template.OrderResult :=
  if 200 ≤ status ∧ status < 300 then
    let id :=
      match strFind resp orderIdKey with
      | none => []
      | some pos =>
        match charFindFrom resp '"' (pos + orderIdKey.length) with
        | none => []
        | some endPos => substrRange resp (pos + orderIdKey.length) endPos
    { orderId := String.mk id, accepted := true, message := "Accepted" }
  else
    { orderId := "", accepted := false,
      message := "Order failed: HTTP " ++ toString status ++ " " ++ String.mk resp }

end Alpaca

/-- C10: for a status in `[200, 300)` whose body lacks the substring
`"id":"`, the parser returns `accepted = true` with an empty `orderId`;
and `accepted = false` holds exactly when the status is outside
`[200, 300)`. -/
theorem parse_order_result_accepts_without_id (status : Int) (resp : List Char) :
    ((200 ≤ status ∧ status < 300) → Alpaca.strFind resp Alpaca.orderIdKey = none →
      Alpaca.parse_order_result status resp =
        { orderId := "", accepted := true, message := "Accepted" }) ∧
    ((Alpaca.parse_order_result status resp).accepted = false ↔
      ¬(200 ≤ status ∧ status < 300)) := by
  constructor
  · intro hst hfind
    simp [Alpaca.parse_order_result, hst, hfind]
  · by_cases hst : 200 ≤ status ∧ status < 300 <;>
      simp [Alpaca.parse_order_result, hst]

/-- Witness for C10: status 204 with a body lacking the id key parses to an
accepted result with an empty order id. -/
theorem parse_order_result_accepts_without_id_witness :
    Alpaca.parse_order_result 204 ("ok".toList) =
      { orderId := "", accepted := true, message := "Accepted" } :=
  (parse_order_result_accepts_without_id 204 ("ok".toList)).1 (by norm_num) (by decide)
